import Mathlib

/-!
Shallow embedding of the real-time chat and presence subsystem of the
booktime repository (src/main/consumers.py), together with proofs of the
behavioural properties stated in the specification.

The embedding models:
* the user / order data accessed by `ChatConsumer.get_user_type`;
* the effect trace produced by `ChatConsumer.connect`, `disconnect` and
  `receive_json` (channel-layer calls, websocket close/accept, Redis
  `setex`, order lookups);
* the channel-layer group fan-out (`group_send`);
* the presence-key split, grouping, rendering and sending loop of
  `ChatNotifyConsumer.stream`, including the one-shot (`nopoll`) mode and
  the cooperative `is_streaming` flag.
-/

namespace Booktime

/-- Model of a Django user as seen by the consumers: `is_anonymous`,
`is_employee`, `email` and `get_full_name()`.  `id` is the primary key used
for identity comparison of model instances. -/
structure User where
  id : Nat
  is_anonymous : Bool
  is_employee : Bool
  email : String
  full_name : String
deriving Repr, DecidableEq

/-- Model of `models.Order` restricted to the fields the consumers touch:
primary key, the owning user (by id) and the `last_spoken_to` foreign key
(by user id, `none` when unset). -/
structure Order where
  pk : Nat
  userId : Nat
  last_spoken_to : Option Nat
deriving Repr, DecidableEq

/-- Events placed on the channel layer by `group_send`; the `type` field of
the Python dict becomes the constructor, the remaining fields its
arguments. -/
inductive Event where
  | chat_join (username : String)
  | chat_leave (username : String)
  | chat_message (username : String) (message : String)
deriving Repr, DecidableEq

/-- Observable side effects of one consumer method, in program order:
websocket `close`/`accept`, the ORM order lookup inside `get_user_type`,
opening the Redis connection, the channel-layer `group_add` / `group_send`
/ `group_discard` calls, and the Redis `setex` write. -/
inductive Effect where
  | close
  | dbQuery (order_id : Nat)
  | redisConnect
  | groupAdd (group : String) (channel : String)
  | accept
  | groupSend (group : String) (event : Event)
  | groupDiscard (group : String) (channel : String)
  | setex (key : String) (ttl : Nat) (value : String)
deriving Repr, DecidableEq

/-- The two authorization outcomes `ChatConsumer.EMPLOYEE = 2` and
`ChatConsumer.CLIENT = 1`; the Python `None` outcome is modelled as
`Option.none` at use sites. -/
inductive UserType where
  | EMPLOYEE
  | CLIENT
deriving Repr, DecidableEq

/-- Lookup of `get_object_or_404(models.Order, pk=order_id)` over the
database modelled as a list of orders. -/
def findOrder (db : List Order) (order_id : Nat) : Option Order :=
  db.find? (fun o => o.pk == order_id)

/-- The persisted effect of `order.save()`: replace the stored row with the
updated one (matched by primary key). -/
def saveOrder (db : List Order) (o : Order) : List Order :=
  db.map (fun x => if x.pk == o.pk then o else x)

/-- Django's `order.user == user` comparison: an `AnonymousUser` is never
equal to a persisted user, otherwise instances compare by primary key. -/
def orderOwnedBy (o : Order) (u : User) : Bool :=
  !u.is_anonymous && (o.userId == u.id)

/-- Translation of `ChatConsumer.get_user_type`: resolve the order
(`get_object_or_404`, `Except.error` models the raised `Http404`), then
classify: staff users are recorded as `last_spoken_to` and classified
`EMPLOYEE`; the owning customer is classified `CLIENT`; anyone else gets
`none`. -/
def get_user_type (db : List Order) (user : User) (order_id : Nat) :
    Except Unit (Option UserType × List Order) :=
  match findOrder db order_id with
  | none => Except.error ()
  | some order =>
    if user.is_employee then
      Except.ok (some UserType.EMPLOYEE,
        saveOrder db { order with last_spoken_to := some user.id })
    else if orderOwnedBy order user then
      Except.ok (some UserType.CLIENT, db)
    else
      Except.ok (none, db)

/-- The room name built in `connect`:
`self.room_group_name = "customer-service_%s" % self.order_id`. -/
def room_group_name (order_id : Nat) : String :=
  "customer-service_" ++ toString order_id

/-- The Redis key written by a heartbeat:
`"%s_%s" % (self.room_group_name, self.scope["user"].email)`. -/
def heartbeat_key (order_id : Nat) (email : String) : String :=
  room_group_name order_id ++ "_" ++ email

/-- Result of one `connect` call: the effect trace, the database after any
`order.save()`, and whether the call returned normally (`ok = false` models
the `Http404` raised by `get_object_or_404` escaping `connect`). -/
structure ConnectResult where
  effects : List Effect
  db : List Order
  ok : Bool
deriving Repr, DecidableEq

/-- Translation of `ChatConsumer.connect`.  Note the faithful control flow
of the source: for an anonymous user `self.close()` is awaited but the
method does NOT return, so `get_user_type` (and with it the order lookup)
still runs; `authorized` is set only for `EMPLOYEE` / `CLIENT`, and only
then are the Redis connection, `group_add`, `accept` and the `chat_join`
`group_send` performed. -/
def connect (db : List Order) (user : User) (order_id : Nat)
    (channel : String) : ConnectResult :=
  let room := room_group_name order_id
  let pre : List Effect :=
    (if user.is_anonymous then [Effect.close] else []) ++ [Effect.dbQuery order_id]
  match get_user_type db user order_id with
  | Except.error _ => { effects := pre, db := db, ok := false }
  | Except.ok (userType, db2) =>
    match userType with
    | some _ =>
      { effects := pre ++
          [Effect.redisConnect, Effect.groupAdd room channel, Effect.accept,
           Effect.groupSend room (Event.chat_join user.full_name)],
        db := db2, ok := true }
    | none =>
      { effects := pre ++ [Effect.close], db := db2, ok := true }

/-- Translation of `ChatConsumer.disconnect`: whenever the scope user is
not anonymous — joined or not — broadcast `chat_leave` and discard the
channel from the group.  It consults nothing but the anonymity flag. -/
def disconnect (user : User) (order_id : Nat) (channel : String) :
    List Effect :=
  if user.is_anonymous then []
  else
    [Effect.groupSend (room_group_name order_id)
       (Event.chat_leave user.full_name),
     Effect.groupDiscard (room_group_name order_id) channel]

/-- An inbound JSON message as accessed by `receive_json`:
`content.get("type")` and `content["message"]`. -/
structure Content where
  type : Option String
  message : Option String
deriving Repr, DecidableEq

/-- Translation of `ChatConsumer.receive_json`: a `message` event is
broadcast as `chat_message` with the sender's full name and the verbatim
body (`none` models the `KeyError` when the field is missing); a
`heartbeat` event performs `setex(key, 10, "1")`; anything else does
nothing. -/
def receive_json (user : User) (order_id : Nat) (content : Content) :
    Option (List Effect) :=
  match content.type with
  | some "message" =>
    match content.message with
    | some m =>
      some [Effect.groupSend (room_group_name order_id)
        (Event.chat_message user.full_name m)]
    | none => none
  | some "heartbeat" =>
    some [Effect.setex (heartbeat_key order_id user.email) 10 "1"]
  | _ => some []

/-- The channel layer's `group_send` fan-out: the event is handed to every
channel currently registered under the group, and to no other channel.
The registry is the multiset of `(group, channel)` pairs built by
`group_add`. -/
def group_send_deliver (registry : List (String × String)) (group : String)
    (event : Event) : List (String × Event) :=
  (registry.filter (fun p => p.1 == group)).map (fun p => (p.2, event))

/-- Handler `ChatConsumer.chat_message`: `send_json(event)` forwards the
event to the client verbatim. -/
def chat_message (event : Event) : Event := event

/-- Handler `ChatConsumer.chat_join`: forwards the event verbatim. -/
def chat_join (event : Event) : Event := event

/-- Handler `ChatConsumer.chat_leave`: forwards the event verbatim. -/
def chat_leave (event : Event) : Event := event

/-!
Model of `ChatNotifyConsumer.stream` (src/main/consumers.py, lines
169-205).  Each pass of the `while self.is_streaming` loop scans the
store, splits every key on `_` (Python's `str.split`, a `ValueError` on a
non-3-way split kills the task and is modelled as `none`), groups emails
by order id in insertion order (a Python dict), and then walks the groups:
for each group it appends one entry to `data`, serializes the WHOLE
accumulated `data` list and sends it as one frame.  In `nopoll` mode each
send also clears `is_streaming` (but the inner loop keeps going); in
continuous mode the frame carries `more_body=self.is_streaming` and a 5 s
sleep follows, during which a disconnect may flip the flag.
-/

/-- Python's `s.split(sep)` for a one-character separator, on the
character list of the string: splits at every occurrence, keeping empty
parts, and yields `[whole]` when the separator is absent. -/
def pysplit (sep : Char) : List Char → List (List Char)
  | [] => [[]]
  | c :: rest =>
    if c = sep then [] :: pysplit sep rest
    else
      match pysplit sep rest with
      | [] => [[c]]
      | h :: t => (c :: h) :: t

/-- The destructuring `_, order_id, user_email = i.decode("utf8").split("_")`:
succeeds exactly when the split has three parts, otherwise the Python
`ValueError` is modelled as `none`. -/
def parsePresenceKey (k : String) : Option (String × String × String) :=
  match pysplit '_' k.toList with
  | [a, b, c] => some (String.mk a, String.mk b, String.mk c)
  | _ => none

/-- The `r_conn.keys("customer-service_*")` scan over the store's keys:
the glob keeps exactly the keys beginning with `customer-service_`. -/
def scanKeys (storeKeys : List String) : List String :=
  storeKeys.filter (fun k => "customer-service_".toList.isPrefixOf k.toList)

/-- One step of building the `presences` dict: append the email to an
existing order's list, or add a new `(order_id, [email])` entry at the end
(Python dicts preserve insertion order). -/
def addPresence (ps : List (String × List String)) (oid : String)
    (email : String) : List (String × List String) :=
  if ps.any (fun p => p.1 == oid) then
    ps.map (fun p => if p.1 == oid then (p.1, p.2 ++ [email]) else p)
  else ps ++ [(oid, [email])]

/-- The key-parsing loop of `stream` over the scanned keys, threading the
`presences` accumulator; `none` models the `ValueError` raised on a key
that does not split into exactly three parts. -/
def buildPresencesAux : List (String × List String) → List String →
    Option (List (String × List String))
  | ps, [] => some ps
  | ps, k :: rest =>
    match parsePresenceKey k with
    | some (_, oid, email) => buildPresencesAux (addPresence ps oid email) rest
    | none => none

/-- The `presences` association list built from the scanned keys. -/
def buildPresences (keys : List String) :
    Option (List (String × List String)) :=
  buildPresencesAux [] keys

/-- One element of the `data` list: `\x7b"link": ..., "text": ...\x7d`. -/
structure Entry where
  link : String
  text : String
deriving Repr, DecidableEq

/-- Escaping of one character inside a JSON string literal as done by
`json.dumps` for the characters that can occur here. -/
def jsonEscapeChar (c : Char) : List Char :=
  if c = '\\' then ['\\', '\\']
  else if c = '"' then ['\\', '"']
  else if c = '\n' then ['\\', 'n']
  else if c = '\t' then ['\\', 't']
  else [c]

/-- A JSON string literal. -/
def jsonString (s : String) : String :=
  "\"" ++ String.mk (s.toList.map jsonEscapeChar).flatten ++ "\""

/-- `json.dumps` of one `\x7b"link": ..., "text": ...\x7d` dict (default
separators). -/
def jsonEntry (e : Entry) : String :=
  "\x7b\"link\": " ++ jsonString e.link ++ ", \"text\": " ++
    jsonString e.text ++ "\x7d"

/-- `json.dumps` of the accumulated `data` list. -/
def jsonDumps (l : List Entry) : String :=
  "[" ++ String.intercalate ", " (l.map jsonEntry) ++ "]"

/-- The entry appended to `data` for one room:
`reverse("cs_chat", ...)` is the `link` parameter (the URL configuration is
outside the modelled sources), and the text is
`"%s (%s)" % (order_id, ", ".join(emails))`. -/
def renderEntry (link : String → String) (order_id : String)
    (emails : List String) : Entry :=
  { link := link order_id,
    text := order_id ++ " (" ++ String.intercalate ", " emails ++ ")" }

/-- One `send_body` call: the payload bytes and the `more_body` flag it was
sent with. -/
structure SendRec where
  payload : String
  more_body : Bool
deriving Repr, DecidableEq

/-- The inner `for order_id, emails in presences.items()` loop in `nopoll`
mode: each room appends its entry to `data`, sends the whole accumulated
list as one frame (the default `more_body=False` of `send_body`), and clears
`is_streaming`; the `for` loop itself never consults the flag, so it keeps
sending for the remaining rooms. -/
def npIterSends (link : String → String) :
    List (String × List String) → List Entry → List SendRec
  | [], _ => []
  | (oid, emails) :: rest, data =>
    let data2 := data ++ [renderEntry link oid emails]
    { payload := "data: " ++ jsonDumps data2 ++ "\n\n", more_body := false } ::
      npIterSends link rest data2

/-- Value of `self.is_streaming` when the k-th send of a continuous-mode
pass happens, given that a disconnect flips the flag after `m` sends of
this pass (`none` = no disconnect during the pass). -/
def flagAt (disconnectAt : Option Nat) (k : Nat) : Bool :=
  match disconnectAt with
  | none => true
  | some m => decide (k < m)

/-- The inner loop of one continuous-mode pass: each room appends its entry
to `data` and unconditionally sends the whole accumulated list, with
`more_body` equal to the current `is_streaming` value; the 5 s sleep after
each send is where a disconnect can land, flipping the flag for the
remaining sends — which still happen, since only the outer `while` tests
the flag. -/
def contIterSends (link : String → String) (disconnectAt : Option Nat) :
    List (String × List String) → List Entry → Nat → List SendRec
  | [], _, _ => []
  | (oid, emails) :: rest, data, k =>
    let data2 := data ++ [renderEntry link oid emails]
    { payload := "data: " ++ jsonDumps data2 ++ "\n\n",
      more_body := flagAt disconnectAt k } ::
      contIterSends link disconnectAt rest data2 (k + 1)

/-- The `while self.is_streaming` loop in `nopoll` mode with no client
disconnect, bounded by `fuel` passes: each pass scans and groups the keys
(`none` propagates the `ValueError` crash), performs the `nopoll` sends,
and the flag stays up only when no room produced a send.  Returns the
sends and the flag after the fuel runs out or the flag drops. -/
def streamRunNoPoll (link : String → String) (storeKeys : List String) :
    Nat → Bool → Option (List SendRec × Bool)
  | 0, flag => some ([], flag)
  | fuel + 1, flag =>
    if flag then
      match buildPresences (scanKeys storeKeys) with
      | none => none
      | some entries =>
        let sends := npIterSends link entries []
        let flag2 := if entries.isEmpty then flag else false
        match streamRunNoPoll link storeKeys fuel flag2 with
        | none => none
        | some (rest, fin) => some (sends ++ rest, fin)
    else some ([], flag)

/-- The `while self.is_streaming` loop in continuous mode, bounded by
`fuel` passes; `sched i` says whether (and after how many sends) a
disconnect flips the flag during pass `i`.  The flag is only consulted at
the top of the loop. -/
def streamRunCont (link : String → String) (storeKeys : List String)
    (sched : Nat → Option Nat) :
    Nat → Nat → Bool → Option (List SendRec × Bool)
  | 0, _, flag => some ([], flag)
  | fuel + 1, i, flag =>
    if flag then
      match buildPresences (scanKeys storeKeys) with
      | none => none
      | some entries =>
        let sends := contIterSends link (sched i) entries [] 0
        let flag2 := match sched i with
          | none => flag
          | some _ => false
        match streamRunCont link storeKeys sched fuel (i + 1) flag2 with
        | none => none
        | some (rest, fin) => some (sends ++ rest, fin)
    else some ([], flag)

/-!
Concrete data used by witnesses and counterexamples.
-/

/-- A concrete stand-in for `reverse("cs_chat", ...)` (the URL
configuration lives outside the modelled sources; the stream model is
parametric in it). -/
def demoLink (oid : String) : String := "/customer-service/" ++ oid ++ "/"

/-- Two live presence keys in two distinct rooms. -/
def demoKeys2 : List String :=
  ["customer-service_7_a@x.com", "customer-service_8_b@y.com"]

/-- The grouping the scan derives from `demoKeys2`. -/
def demoEntries2 : List (String × List String) :=
  [("7", ["a@x.com"]), ("8", ["b@y.com"])]

/-- An order with primary key 42 owned by user 7. -/
def demoOrder : Order := { pk := 42, userId := 7, last_spoken_to := none }

/-- An anonymous caller. -/
def demoAnon : User :=
  { id := 0, is_anonymous := true, is_employee := false,
    email := "", full_name := "Anonymous" }

/-- A staff caller. -/
def demoEmployee : User :=
  { id := 9, is_anonymous := false, is_employee := true,
    email := "e@x.com", full_name := "Emma" }

/-- The customer owning `demoOrder`. -/
def demoClient : User :=
  { id := 7, is_anonymous := false, is_employee := false,
    email := "c@x.com", full_name := "Cleo" }

/-- An authenticated caller who is neither staff nor the owner of
`demoOrder`. -/
def demoStranger : User :=
  { id := 8, is_anonymous := false, is_employee := false,
    email := "s@x.com", full_name := "Sam" }

/-- A customer whose email contains an underscore. -/
def demoUnderscoreClient : User :=
  { id := 7, is_anonymous := false, is_employee := false,
    email := "john_doe@example.com", full_name := "Jo" }

/-!
Theorems.
-/

/-- C1: a `message` event received from a joined connection in room R is
broadcast as one `chat_message` event carrying the sender's display name
and the verbatim message body; `group_send` delivers it to exactly the
connections registered under R in the Group Registry (the sender included,
being registered) and to no channel outside R; and the `chat_message`
handler forwards the event to the client unchanged. -/
theorem c1_message_broadcast_to_room (user : User) (order_id : Nat)
    (m : String) (registry : List (String × String)) :
    receive_json user order_id { type := some "message", message := some m } =
      some [Effect.groupSend (room_group_name order_id)
        (Event.chat_message user.full_name m)] ∧
    (∀ ch : String,
      (ch, Event.chat_message user.full_name m) ∈
          group_send_deliver registry (room_group_name order_id)
            (Event.chat_message user.full_name m) ↔
        (room_group_name order_id, ch) ∈ registry) ∧
    chat_message (Event.chat_message user.full_name m) =
      Event.chat_message user.full_name m := by
  refine ⟨rfl, ?_, rfl⟩
  intro ch
  constructor
  · intro h
    rw [group_send_deliver, List.mem_map] at h
    obtain ⟨p, hp, he⟩ := h
    rw [List.mem_filter] at hp
    obtain ⟨hpmem, hpg⟩ := hp
    have h1 : p.1 = room_group_name order_id := by
      exact beq_iff_eq.mp hpg
    have h2 : p.2 = ch := by
      have := congrArg Prod.fst he
      simpa using this
    have hpe : p = (room_group_name order_id, ch) := by
      cases p
      simp_all
    rwa [hpe] at hpmem
  · intro h
    rw [group_send_deliver, List.mem_map]
    refine ⟨(room_group_name order_id, ch), ?_, rfl⟩
    rw [List.mem_filter]
    exact ⟨h, by simp⟩

/-- Witness for C1 at a concrete room, sender, message and registry. -/
theorem c1_witness :
    receive_json demoClient 42 { type := some "message", message := some "hi" } =
      some [Effect.groupSend (room_group_name 42)
        (Event.chat_message demoClient.full_name "hi")] ∧
    (∀ ch : String,
      (ch, Event.chat_message demoClient.full_name "hi") ∈
          group_send_deliver [(room_group_name 42, "chanE"),
              (room_group_name 42, "chanC"), (room_group_name 41, "chanX")]
            (room_group_name 42)
            (Event.chat_message demoClient.full_name "hi") ↔
        (room_group_name 42, ch) ∈ [(room_group_name 42, "chanE"),
          (room_group_name 42, "chanC"), (room_group_name 41, "chanX")]) ∧
    chat_message (Event.chat_message demoClient.full_name "hi") =
      Event.chat_message demoClient.full_name "hi" :=
  c1_message_broadcast_to_room demoClient 42 "hi"
    [(room_group_name 42, "chanE"), (room_group_name 42, "chanC"),
     (room_group_name 41, "chanX")]

/-- C4 (code bug): for an anonymous caller on an existing order, the
source closes the socket but — lacking a `return` after
`await self.close()` — still performs the order lookup via
`get_user_type` and then closes a second time in the unauthorized branch,
contradicting the specified direct transition to CLOSED with no order
lookup and no other side effect. -/
theorem c4_anonymous_connect_still_queries_order :
    (connect [demoOrder] demoAnon 42 "chan").effects =
      [Effect.close, Effect.dbQuery 42, Effect.close] := by
  decide

/-- C7: for a joined session, a `heartbeat` event performs exactly one
Presence Store write, of key `customer-service_<order_id>_<email>` with
value `"1"` and TTL 10 seconds, the room identifier being the string
concatenation `"customer-service_" + order_id`. -/
theorem c7_heartbeat_presence_key (user : User) (order_id : Nat) :
    receive_json user order_id { type := some "heartbeat", message := none } =
      some [Effect.setex (heartbeat_key order_id user.email) 10 "1"] ∧
    heartbeat_key order_id user.email =
      "customer-service_" ++ toString order_id ++ "_" ++ user.email ∧
    room_group_name order_id = "customer-service_" ++ toString order_id :=
  ⟨rfl, rfl, rfl⟩

/-- Witness for C7 at a concrete user and order. -/
theorem c7_witness :
    receive_json demoClient 42 { type := some "heartbeat", message := none } =
      some [Effect.setex (heartbeat_key 42 demoClient.email) 10 "1"] ∧
    heartbeat_key 42 demoClient.email =
      "customer-service_" ++ toString 42 ++ "_" ++ demoClient.email ∧
    room_group_name 42 = "customer-service_" ++ toString 42 :=
  c7_heartbeat_presence_key demoClient 42

/-- C10: `disconnect` consults only the anonymity of the scope user — it
takes no account of whether the connection ever joined — so every
authenticated caller's disconnect broadcasts `chat_leave` to the room and
discards the channel from the Group Registry, a rejected-at-connect
caller included. -/
theorem c10_disconnect_leave_without_join (user : User) (order_id : Nat)
    (channel : String) (h : user.is_anonymous = false) :
    disconnect user order_id channel =
      [Effect.groupSend (room_group_name order_id)
         (Event.chat_leave user.full_name),
       Effect.groupDiscard (room_group_name order_id) channel] := by
  simp [disconnect, h]

/-- Witness for C10: the stranger rejected during connect still produces a
leave broadcast on disconnect. -/
theorem c10_witness :
    disconnect demoStranger 42 "chanS" =
      [Effect.groupSend (room_group_name 42)
         (Event.chat_leave demoStranger.full_name),
       Effect.groupDiscard (room_group_name 42) "chanS"] :=
  c10_disconnect_leave_without_join demoStranger 42 "chanS" rfl

/-- Helper: when the caller is not staff and does not own the order (if it
exists), every effect of `connect` is a close or the order lookup — in
particular `connect` neither accepts, joins the registry, nor broadcasts. -/
theorem connect_unauthorized_effects (db : List Order) (user : User)
    (order_id : Nat) (channel : String)
    (hemp : user.is_employee = false)
    (hown : ∀ o, findOrder db order_id = some o → orderOwnedBy o user = false) :
    ∀ e ∈ (connect db user order_id channel).effects,
      e = Effect.close ∨ e = Effect.dbQuery order_id := by
  intro e he
  cases hfind : findOrder db order_id with
  | none =>
    rw [connect] at he
    simp only [get_user_type, hfind] at he
    rcases List.mem_append.mp he with h1 | h2
    · cases hanon : user.is_anonymous <;> simp [hanon] at h1
      left
      exact h1
    · right
      simpa using h2
  | some o =>
    have ho := hown o hfind
    rw [connect] at he
    simp only [get_user_type, hfind, hemp, ho, Bool.false_eq_true, if_false] at he
    rcases List.mem_append.mp he with h1 | h2
    · rcases List.mem_append.mp h1 with h3 | h4
      · cases hanon : user.is_anonymous <;> simp [hanon] at h3
        left
        exact h3
      · right
        simpa using h4
    · left
      simpa using h2

/-- C5: an unauthorized connect attempt — anonymous caller, or an
authenticated caller who is neither staff nor the order's owning customer
— never sends any `group_send` (so no `join` broadcast), never calls
`group_add` (so the connection never enters the Group Registry), and is
never accepted.  (`hwf` records that Django's anonymous scope user is not
staff.) -/
theorem c5_unauthorized_never_joins (db : List Order) (user : User)
    (order_id : Nat) (channel : String)
    (hwf : user.is_anonymous = true → user.is_employee = false)
    (hUn : user.is_anonymous = true ∨
      (user.is_employee = false ∧
        ∀ o, findOrder db order_id = some o → orderOwnedBy o user = false)) :
    (∀ g ch, Effect.groupAdd g ch ∉ (connect db user order_id channel).effects) ∧
    (∀ g ev, Effect.groupSend g ev ∉ (connect db user order_id channel).effects) ∧
    Effect.accept ∉ (connect db user order_id channel).effects := by
  have hemp : user.is_employee = false := by
    rcases hUn with h | h
    · exact hwf h
    · exact h.1
  have hown : ∀ o, findOrder db order_id = some o →
      orderOwnedBy o user = false := by
    rcases hUn with h | h
    · intro o _
      simp [orderOwnedBy, h]
    · exact h.2
  have key := connect_unauthorized_effects db user order_id channel hemp hown
  refine ⟨?_, ?_, ?_⟩
  · intro g ch hmem
    rcases key _ hmem with h | h <;> exact Effect.noConfusion h
  · intro g ev hmem
    rcases key _ hmem with h | h <;> exact Effect.noConfusion h
  · intro hmem
    rcases key _ hmem with h | h <;> exact Effect.noConfusion h

/-- Witness for C5: the authenticated stranger on order 42 is never
joined, never broadcast for, never accepted. -/
theorem c5_witness :
    (∀ g ch, Effect.groupAdd g ch ∉
      (connect [demoOrder] demoStranger 42 "chanS").effects) ∧
    (∀ g ev, Effect.groupSend g ev ∉
      (connect [demoOrder] demoStranger 42 "chanS").effects) ∧
    Effect.accept ∉ (connect [demoOrder] demoStranger 42 "chanS").effects :=
  c5_unauthorized_never_joins [demoOrder] demoStranger 42 "chanS"
    (by intro h; exact absurd h (by decide))
    (Or.inr ⟨rfl, by intro o ho; cases ho; decide⟩)

/-- Helper: `List.find?` hit on the head. -/
theorem findOrder_cons_pos (x : Order) (xs : List Order) (order_id : Nat)
    (h : (x.pk == order_id) = true) :
    findOrder (x :: xs) order_id = some x := by
  simp [findOrder, List.find?_cons, h]

/-- Helper: after `saveOrder db o2`, looking the order up again finds the
saved row, provided the lookup previously found a row with the same key. -/
theorem findOrder_saveOrder (order_id : Nat) (o o2 : Order)
    (hpk : o2.pk = o.pk) (hopk : (o.pk == order_id) = true) :
    ∀ db : List Order, findOrder db order_id = some o →
      findOrder (saveOrder db o2) order_id = some o2 := by
  intro db
  induction db with
  | nil => intro h; simp [findOrder] at h
  | cons x xs ih =>
    intro h
    by_cases hx : (x.pk == order_id) = true
    · have hhit : findOrder (x :: xs) order_id = some x :=
        findOrder_cons_pos x xs order_id hx
      have hox : x = o := Option.some.inj (hhit.symm.trans h)
      have hhead : x.pk = o2.pk := by
        rw [hox, hpk]
      have hsave : saveOrder (x :: xs) o2 = o2 :: saveOrder xs o2 := by
        simp [saveOrder, hhead]
      rw [hsave]
      apply findOrder_cons_pos
      rw [hpk]
      rw [hox] at hx
      exact hx
    · have hxf : (x.pk == order_id) = false := by simpa using hx
      have hstep : findOrder (x :: xs) order_id = findOrder xs order_id := by
        simp [findOrder, List.find?_cons, hxf]
      rw [hstep] at h
      have htail := ih h
      have hxne : ¬x.pk = o2.pk := by
        rw [hpk]
        have hoeq : o.pk = order_id := beq_iff_eq.mp hopk
        rw [hoeq]
        simpa using hxf
      have hsave : saveOrder (x :: xs) o2 = x :: saveOrder xs o2 := by
        simp [saveOrder, hxne]
      rw [hsave]
      have hstep2 : findOrder (x :: saveOrder xs o2) order_id =
          findOrder (saveOrder xs o2) order_id := by
        simp [findOrder, List.find?_cons, hxf]
      rw [hstep2]
      exact htail

/-- C6: for an existing order the authorization check classifies a staff
caller as EMPLOYEE — persisting the caller as the order's
`last_spoken_to` —, the owning customer as CLIENT, and anyone else as
unauthorized (`none`); when no order has the identifier, the check raises
not-found and `connect` propagates it, so the connection is never
accepted. -/
theorem c6_get_user_type_classification (db : List Order) (user : User)
    (order_id : Nat) (channel : String) :
    (findOrder db order_id = none →
      get_user_type db user order_id = Except.error () ∧
      (connect db user order_id channel).ok = false ∧
      Effect.accept ∉ (connect db user order_id channel).effects) ∧
    (∀ o, findOrder db order_id = some o →
      (user.is_employee = true →
        get_user_type db user order_id =
          Except.ok (some UserType.EMPLOYEE,
            saveOrder db { o with last_spoken_to := some user.id }) ∧
        findOrder (saveOrder db { o with last_spoken_to := some user.id })
          order_id = some { o with last_spoken_to := some user.id }) ∧
      (user.is_employee = false → orderOwnedBy o user = true →
        get_user_type db user order_id = Except.ok (some UserType.CLIENT, db)) ∧
      (user.is_employee = false → orderOwnedBy o user = false →
        get_user_type db user order_id = Except.ok (none, db))) := by
  constructor
  · intro hfind
    refine ⟨by simp [get_user_type, hfind], ?_, ?_⟩
    · rw [connect]
      simp [get_user_type, hfind]
    · rw [connect]
      simp only [get_user_type, hfind]
      intro hmem
      rcases List.mem_append.mp hmem with h1 | h2
      · cases hanon : user.is_anonymous <;> simp [hanon] at h1
      · simp at h2
  · intro o hfind
    refine ⟨?_, ?_, ?_⟩
    · intro hemp
      refine ⟨by simp [get_user_type, hfind, hemp], ?_⟩
      have hopk : (o.pk == order_id) = true := by
        have h2 : List.find? (fun x => x.pk == order_id) db = some o := hfind
        have h3 := List.find?_some h2
        simpa using h3
      exact findOrder_saveOrder order_id o
        { o with last_spoken_to := some user.id } rfl hopk db hfind
    · intro hemp hown
      simp [get_user_type, hfind, hemp, hown]
    · intro hemp hown
      simp [get_user_type, hfind, hemp, hown]

/-- Witness for C6 at a concrete database. -/
theorem c6_witness :
    (findOrder [demoOrder] 42 = none →
      get_user_type [demoOrder] demoEmployee 42 = Except.error () ∧
      (connect [demoOrder] demoEmployee 42 "chanE").ok = false ∧
      Effect.accept ∉ (connect [demoOrder] demoEmployee 42 "chanE").effects) ∧
    (∀ o, findOrder [demoOrder] 42 = some o →
      (demoEmployee.is_employee = true →
        get_user_type [demoOrder] demoEmployee 42 =
          Except.ok (some UserType.EMPLOYEE,
            saveOrder [demoOrder] { o with last_spoken_to := some demoEmployee.id }) ∧
        findOrder (saveOrder [demoOrder]
            { o with last_spoken_to := some demoEmployee.id }) 42 =
          some { o with last_spoken_to := some demoEmployee.id }) ∧
      (demoEmployee.is_employee = false → orderOwnedBy o demoEmployee = true →
        get_user_type [demoOrder] demoEmployee 42 =
          Except.ok (some UserType.CLIENT, [demoOrder])) ∧
      (demoEmployee.is_employee = false → orderOwnedBy o demoEmployee = false →
        get_user_type [demoOrder] demoEmployee 42 =
          Except.ok (none, [demoOrder]))) :=
  c6_get_user_type_classification [demoOrder] demoEmployee 42 "chanE"

/-- Helper: one `nopoll` pass sends one frame per room. -/
theorem npIterSends_length (link : String → String) :
    ∀ (entries : List (String × List String)) (data : List Entry),
      (npIterSends link entries data).length = entries.length := by
  intro entries
  induction entries with
  | nil => intro data; rfl
  | cons e rest ih =>
    intro data
    obtain ⟨oid, emails⟩ := e
    simp [npIterSends, ih]

/-- Helper: one continuous pass sends one frame per room. -/
theorem contIterSends_length (link : String → String) (d : Option Nat) :
    ∀ (entries : List (String × List String)) (data : List Entry) (k0 : Nat),
      (contIterSends link d entries data k0).length = entries.length := by
  intro entries
  induction entries with
  | nil => intro data k0; rfl
  | cons e rest ih =>
    intro data k0
    obtain ⟨oid, emails⟩ := e
    simp [contIterSends, ih]

/-- Helper: the j-th frame of a continuous pass serializes the data
accumulated so far plus the first `j + 1` room entries, and carries the
`is_streaming` value of the moment it was sent. -/
theorem contIterSends_get (link : String → String) (d : Option Nat) :
    ∀ (entries : List (String × List String)) (data : List Entry)
      (k0 j : Nat) (hj : j < (contIterSends link d entries data k0).length),
      (contIterSends link d entries data k0).get ⟨j, hj⟩ =
        { payload := "data: " ++ jsonDumps (data ++
            (entries.take (j + 1)).map (fun p => renderEntry link p.1 p.2)) ++
            "\n\n",
          more_body := flagAt d (k0 + j) } := by
  intro entries
  induction entries with
  | nil =>
    intro data k0 j hj
    simp [contIterSends] at hj
  | cons e rest ih =>
    intro data k0 j hj
    obtain ⟨oid, emails⟩ := e
    cases j with
    | zero =>
      simp [contIterSends, List.take]
    | succ j2 =>
      have hj2 : j2 < (contIterSends link d rest
          (data ++ [renderEntry link oid emails]) (k0 + 1)).length := by
        have hlen : j2 + 1 <
            (contIterSends link d ((oid, emails) :: rest) data k0).length := hj
        simpa [contIterSends] using hlen
      have ihres := ih (data ++ [renderEntry link oid emails]) (k0 + 1) j2 hj2
      have hstep : (contIterSends link d ((oid, emails) :: rest) data k0).get
          ⟨j2 + 1, hj⟩ = (contIterSends link d rest
            (data ++ [renderEntry link oid emails]) (k0 + 1)).get ⟨j2, hj2⟩ := rfl
      have harr : k0 + 1 + j2 = k0 + (j2 + 1) := by omega
      rw [hstep, ihres, harr]
      simp [List.take_succ_cons, List.append_assoc]

/-- Helper: once the running flag is down at the top of the `nopoll` loop,
no pass runs and nothing is sent. -/
theorem streamRunNoPoll_stopped (link : String → String)
    (storeKeys : List String) :
    ∀ fuel, streamRunNoPoll link storeKeys fuel false = some ([], false) := by
  intro fuel
  cases fuel with
  | zero => rfl
  | succ f => simp [streamRunNoPoll]

/-- C2 counterexample: a `nopoll` presence stream over a store with two
rooms emits two frames in its single scan pass (one per room, with the
growing snapshot), not exactly one, before the flag drops. -/
theorem c2_counterexample_two_rooms :
    (streamRunNoPoll demoLink demoKeys2 3 true).map
      (fun r => (r.1.length, r.2)) = some (2, false) := by
  decide

/-- C2 amended: a `nopoll` presence stream runs one scan pass and emits
one frame per room with live presence keys — N frames for N ≥ 1 rooms,
after which the running flag is down — while with zero such rooms it
emits no frame at all and the flag never drops (the loop keeps
rescanning). -/
theorem c2_amended_nopoll_one_pass (link : String → String)
    (storeKeys : List String) (entries : List (String × List String))
    (h : buildPresences (scanKeys storeKeys) = some entries) :
    (entries ≠ [] → ∀ fuel, 0 < fuel →
      streamRunNoPoll link storeKeys fuel true =
        some (npIterSends link entries [], false) ∧
      (npIterSends link entries []).length = entries.length) ∧
    (entries = [] → ∀ fuel,
      streamRunNoPoll link storeKeys fuel true = some ([], true)) := by
  constructor
  · intro hne fuel hf
    refine ⟨?_, npIterSends_length link entries []⟩
    cases fuel with
    | zero => exact absurd hf (by omega)
    | succ f =>
      have hie : entries.isEmpty = false := by
        cases entries with
        | nil => exact absurd rfl hne
        | cons a l => rfl
      simp [streamRunNoPoll, h, hie, streamRunNoPoll_stopped]
  · intro hz fuel
    subst hz
    induction fuel with
    | zero => rfl
    | succ f ihf => simp [streamRunNoPoll, h, ihf, npIterSends]

/-- Witness for the amended C2 at a two-room store. -/
theorem c2_witness :
    (demoEntries2 ≠ [] → ∀ fuel, 0 < fuel →
      streamRunNoPoll demoLink demoKeys2 fuel true =
        some (npIterSends demoLink demoEntries2 [], false) ∧
      (npIterSends demoLink demoEntries2 []).length = demoEntries2.length) ∧
    (demoEntries2 = [] → ∀ fuel,
      streamRunNoPoll demoLink demoKeys2 fuel true = some ([], true)) :=
  c2_amended_nopoll_one_pass demoLink demoKeys2 demoEntries2 (by decide)

/-- C3: in a continuous-mode scan pass over N rooms with live presence
keys, exactly N frames are emitted, and the k-th frame serializes the
cumulative list of the first k room entries (each a link plus the text
combining the order id and its comma-joined participant emails) — not one
frame with the full snapshot. -/
theorem c3_continuous_pass_emits_cumulative (link : String → String)
    (storeKeys : List String) (entries : List (String × List String))
    (h : buildPresences (scanKeys storeKeys) = some entries) :
    (contIterSends link none entries [] 0).length = entries.length ∧
    ∀ j (hj : j < (contIterSends link none entries [] 0).length),
      (contIterSends link none entries [] 0).get ⟨j, hj⟩ =
        { payload := "data: " ++ jsonDumps ((entries.take (j + 1)).map
            (fun p => renderEntry link p.1 p.2)) ++ "\n\n",
          more_body := true } := by
  refine ⟨contIterSends_length link none entries [] 0, ?_⟩
  intro j hj
  have hres := contIterSends_get link none entries [] 0 j hj
  simpa [flagAt] using hres

/-- Witness for C3 at a two-room store. -/
theorem c3_witness :
    (contIterSends demoLink none demoEntries2 [] 0).length =
      demoEntries2.length ∧
    ∀ j (hj : j < (contIterSends demoLink none demoEntries2 [] 0).length),
      (contIterSends demoLink none demoEntries2 [] 0).get ⟨j, hj⟩ =
        { payload := "data: " ++ jsonDumps ((demoEntries2.take (j + 1)).map
            (fun p => renderEntry demoLink p.1 p.2)) ++ "\n\n",
          more_body := true } :=
  c3_continuous_pass_emits_cumulative demoLink demoKeys2 demoEntries2
    (by decide)

/-- C9 counterexample: with two rooms and a disconnect landing in the
sleep after the first frame, the in-flight pass still sends the second
room's frame — after the flag flip, with `more_body = false` — so the
flip does not prevent frames mid-pass. -/
theorem c9_counterexample_send_after_flip :
    (contIterSends demoLink (some 1) demoEntries2 [] 0).map
      SendRec.more_body = [true, false] := by
  decide

/-- C9 amended: the disconnect-triggered flag flip is observed only at
the top of the next scan pass — a loop entered with the flag down emits
zero frames — but the in-flight pass still sends one frame per remaining
room, each such frame carrying `more_body = false`. -/
theorem c9_amended_stop_at_pass_top (link : String → String)
    (storeKeys : List String) (sched : Nat → Option Nat)
    (entries : List (String × List String)) (m : Nat)
    (h : buildPresences (scanKeys storeKeys) = some entries) :
    (∀ fuel i, streamRunCont link storeKeys sched fuel i false =
      some ([], false)) ∧
    (contIterSends link (some m) entries [] 0).length = entries.length ∧
    (∀ j (hj : j < (contIterSends link (some m) entries [] 0).length),
      m ≤ j →
        ((contIterSends link (some m) entries [] 0).get ⟨j, hj⟩).more_body =
          false) := by
  refine ⟨?_, contIterSends_length link (some m) entries [] 0, ?_⟩
  · intro fuel i
    cases fuel with
    | zero => rfl
    | succ f => simp [streamRunCont]
  · intro j hj hmj
    have hres := contIterSends_get link (some m) entries [] 0 j hj
    rw [hres]
    simp [flagAt]
    omega

/-- Witness for the amended C9 at a two-room store with the flip after
the first frame. -/
theorem c9_witness :
    (∀ fuel i, streamRunCont demoLink demoKeys2 (fun _ => some 1) fuel i
      false = some ([], false)) ∧
    (contIterSends demoLink (some 1) demoEntries2 [] 0).length =
      demoEntries2.length ∧
    (∀ j (hj : j < (contIterSends demoLink (some 1) demoEntries2 [] 0).length),
      1 ≤ j →
        ((contIterSends demoLink (some 1) demoEntries2 [] 0).get
          ⟨j, hj⟩).more_body = false) :=
  c9_amended_stop_at_pass_top demoLink demoKeys2 (fun _ => some 1)
    demoEntries2 1 (by decide)

/-- Helper: a split of a separator-free string is the whole string. -/
theorem pysplit_no_sep (sep : Char) (l : List Char) (h : sep ∉ l) :
    pysplit sep l = [l] := by
  induction l with
  | nil => rfl
  | cons c rest ih =>
    have hc : ¬c = sep := by
      intro e
      subst e
      exact h (List.mem_cons_self c rest)
    have hr : sep ∉ rest := fun hm => h (List.mem_cons_of_mem c hm)
    simp only [pysplit, if_neg hc, ih hr]

/-- Helper: splitting around one separator occurrence, when the part
before it is separator-free, peels off exactly that part. -/
theorem pysplit_append (sep : Char) (l1 l2 : List Char) (h : sep ∉ l1) :
    pysplit sep (l1 ++ sep :: l2) = l1 :: pysplit sep l2 := by
  induction l1 with
  | nil => simp [pysplit]
  | cons c rest ih =>
    have hc : ¬c = sep := by
      intro e
      subst e
      exact h (List.mem_cons_self c rest)
    have hr : sep ∉ rest := fun hm => h (List.mem_cons_of_mem c hm)
    simp only [List.cons_append, pysplit, if_neg hc]
    have hm : pysplit sep (rest.append (sep :: l2)) =
        rest :: pysplit sep l2 := ih hr
    rw [hm]

/-- Helper: decimal digit characters are never an underscore. -/
theorem digitChar_ne_underscore (n : Nat) : Nat.digitChar n ≠ '_' := by
  by_cases h16 : n < 16
  · interval_cases n <;> decide
  · unfold Nat.digitChar
    repeat rw [if_neg (by omega)]
    decide

/-- Helper: the digit expansion of a natural number adds no underscore. -/
theorem toDigitsCore_no_underscore (fuel n : Nat) (ds : List Char)
    (h : '_' ∉ ds) : '_' ∉ Nat.toDigitsCore 10 fuel n ds := by
  induction fuel generalizing n ds with
  | zero => simpa [Nat.toDigitsCore] using h
  | succ f ih =>
    simp only [Nat.toDigitsCore]
    split
    · intro hm
      rcases List.mem_cons.mp hm with he | hm2
      · exact digitChar_ne_underscore _ he.symm
      · exact h hm2
    · apply ih
      intro hm
      rcases List.mem_cons.mp hm with he | hm2
      · exact digitChar_ne_underscore _ he.symm
      · exact h hm2

/-- Helper: the decimal rendering of an order id contains no
underscore. -/
theorem toString_nat_no_underscore (n : Nat) : '_' ∉ (toString n).toList := by
  show '_' ∉ Nat.toDigits 10 n
  exact toDigitsCore_no_underscore (n + 1) n [] (by simp)

/-- C8 counterexample: the heartbeat path writes the presence key for a
participant email containing an underscore — a legal email character —
and the stream's three-way split of that very key then has four parts, so
the destructuring raises (`none`): the parse is not total over the keys
heartbeats can write. -/
theorem c8_counterexample_underscore_email :
    receive_json demoUnderscoreClient 42
        { type := some "heartbeat", message := none } =
      some [Effect.setex (heartbeat_key 42 "john_doe@example.com") 10 "1"] ∧
    (pysplit '_' (heartbeat_key 42 "john_doe@example.com").toList).length = 4 ∧
    parsePresenceKey (heartbeat_key 42 "john_doe@example.com") = none := by
  refine ⟨rfl, by decide, by decide⟩

/-- C8 amended: splitting a scanned presence key on `_` yields exactly
the three parts (constant prefix, order id, participant email) for every
key the heartbeat path writes whose email is underscore-free — order ids
render as decimal digits, and the room prefix contains no underscore —
while keys written for emails containing `_` split into more than three
parts and the parse fails. -/
theorem c8_amended_split_of_clean_email (order_id : Nat) (email : String)
    (h : '_' ∉ email.toList) :
    parsePresenceKey (heartbeat_key order_id email) =
      some ("customer-service", toString order_id, email) := by
  have hkey : (heartbeat_key order_id email).toList =
      "customer-service".toList ++ '_' ::
        ((toString order_id).toList ++ '_' :: email.toList) := by
    simp only [heartbeat_key, room_group_name, String.toList,
      String.data_append, List.append_assoc, List.singleton_append]
    rfl
  rw [parsePresenceKey, hkey,
    pysplit_append '_' "customer-service".toList _ (by decide),
    pysplit_append '_' (toString order_id).toList _
      (toString_nat_no_underscore order_id),
    pysplit_no_sep '_' email.toList h]
  rfl

/-- Witness for the amended C8 at a concrete order and underscore-free
email. -/
theorem c8_witness :
    parsePresenceKey (heartbeat_key 42 "c@x.com") =
      some ("customer-service", toString 42, "c@x.com") :=
  c8_amended_split_of_clean_email 42 "c@x.com" (by decide)

end Booktime
